import Mathlib

/-!
# gator: command router, authorization middleware, scheduler tick, ingestion

A shallow embedding of `main.go` and `internal/rss/rss.go`.

* Go functions that touch storage, the network, the clock or the random source
  are state passing functions over `state σ`, where `σ` is the world outside
  the process (storage content, network, clock, random source).
* The generated `database` package and the Go standard library are not part of
  the sources that are embedded here; their operations are the fields of
  `Env σ`, and every theorem quantifies over all of them.
* Every storage call is appended to `state.calls`, so that "which requests
  were sent to storage, in which order" is a statement about a list.
* A Go function that returns `error` and may also panic returns
  `Outcome (Option GoError)`; `none` is the `nil` error.
* Printing and logging (`fmt.Printf`, `slog`) are left out.
* `int` is 64 bits wide (amd64 / arm64).
-/

namespace Gator

/-! ## Go values -/

/-- Go `error` values that are not nil: `errorf` is an error without a wrapped
cause (`fmt.Errorf` without a `%w` verb, or an error made by a library), `wrapf`
is `fmt.Errorf("<msg>%w", cause)`. -/
inductive GoError where
  | errorf (msg : String)
  | wrapf (msg : String) (cause : GoError)
  deriving DecidableEq, Repr

/-- How a Go call ends: it returns a value, or it panics. -/
inductive Outcome (α : Type) where
  | ret (a : α)
  | panic (msg : String)
  deriving DecidableEq, Repr

/-- A `uuid.UUID`. -/
abbrev UUID := Nat

/-- A `time.Time`; `0` is the zero value. -/
abbrev Instant := Nat

/-- A `time.Duration`: a signed number of nanoseconds. -/
abbrev Duration := Int

/-- Go `sql.NullTime`: the zero value of `Valid` is `false`, and a value whose
`Valid` is `false` is sent to the database as NULL. -/
structure NullTime where
  Time : Instant := 0
  Valid : Bool := false
  deriving DecidableEq, Repr

/-- The Go conversion `int32(n)` of a 64 bit `int`: the low 32 bits, read as a
signed number. -/
def toInt32 (n : Int) : Int :=
  (n + 2 ^ 31) % 2 ^ 32 - 2 ^ 31

/-! ## `internal/rss` -/

/-- The type `rss.Item`. -/
structure rss.Item where
  Title : String := ""
  Link : String := ""
  Description : String := ""
  Pubdate : Instant := 0
  deriving DecidableEq, Repr

/-- The anonymous struct of the field `Channel` of `rss.Feed`. -/
structure rss.ChannelData where
  Title : String := ""
  Link : String := ""
  Description : String := ""
  Items : List rss.Item := []
  deriving DecidableEq, Repr

/-- The type `rss.Feed`. -/
structure rss.Feed where
  Channel : rss.ChannelData := {}
  deriving DecidableEq, Repr

/-! ## `internal/config` -/

/-- The type `config.Config`. -/
structure config.Config where
  DbUrl : String := ""
  CurrentUserName : String := ""
  deriving DecidableEq, Repr

/-! ## `internal/database` (generated code, used through its interface) -/

/-- The row type `database.User`. -/
structure database.User where
  ID : UUID := 0
  CreatedAt : Instant := 0
  UpdatedAt : Instant := 0
  Name : String := ""
  deriving DecidableEq, Repr

/-- The row type `database.Feed`. -/
structure database.Feed where
  ID : UUID := 0
  CreatedAt : Instant := 0
  UpdatedAt : Instant := 0
  Name : String := ""
  Url : String := ""
  UserID : UUID := 0
  LastFetchedAt : NullTime := {}
  deriving DecidableEq, Repr

/-- The row type `database.Post`; `{}` is the Go zero value `database.Post{}`. -/
structure database.Post where
  ID : UUID := 0
  CreatedAt : Instant := 0
  UpdatedAt : Instant := 0
  Title : String := ""
  Url : String := ""
  Description : String := ""
  PublishedAt : Instant := 0
  FeedID : UUID := 0
  deriving DecidableEq, Repr

/-- The type `database.MarkFeedFetchedParams`, with the fields that
`scrapeFeeds` sets. -/
structure database.MarkFeedFetchedParams where
  ID : UUID := 0
  LastFetchedAt : NullTime := {}
  UpdatedAt : Instant := 0
  deriving DecidableEq, Repr

/-- The type `database.CreatePostParams`, with the fields that `savePost`
sets. -/
structure database.CreatePostParams where
  ID : UUID := 0
  CreatedAt : Instant := 0
  UpdatedAt : Instant := 0
  Title : String := ""
  Url : String := ""
  Description : String := ""
  PublishedAt : Instant := 0
  FeedID : UUID := 0
  deriving DecidableEq, Repr

/-- The type `database.GetPostsForUserParams`; `Limit` is an `int32`. -/
structure database.GetPostsForUserParams where
  UserID : UUID := 0
  Limit : Int := 0
  deriving DecidableEq, Repr

/-- The row type `database.GetFeedFollowsForUserRow`, with the field that
`handlerFollowing` reads. -/
structure database.GetFeedFollowsForUserRow where
  FeedName : String := ""
  deriving DecidableEq, Repr

/-- A request sent to storage through `s.Database`. -/
inductive Call where
  | GetUserByName (name : String)
  | GetNextFeedToFetch
  | MarkFeedFetched (arg : database.MarkFeedFetchedParams)
  | CreatePost (arg : database.CreatePostParams)
  | GetPostsForUser (arg : database.GetPostsForUserParams)
  | GetFeedFollowsForUser (userID : UUID)
  deriving DecidableEq, Repr

/-! ## The world outside the process -/

/-- An `*http.Request` as `FetchFeed` builds it. -/
structure Request where
  method : String
  url : String
  headers : List (String × String)
  deriving DecidableEq, Repr

/-- The operations of the `database` package and of the libraries that the
embedded functions call. Each one that depends on the outside world takes the
world and returns the next one. -/
structure Env (σ : Type) where
  /-- Method `(*database.Queries).GetUserByName`. -/
  GetUserByName : σ → String → Except GoError database.User × σ
  /-- Method `(*database.Queries).GetNextFeedToFetch`. -/
  GetNextFeedToFetch : σ → Except GoError database.Feed × σ
  /-- Method `(*database.Queries).MarkFeedFetched`. -/
  MarkFeedFetched : σ → database.MarkFeedFetchedParams → Except GoError database.Feed × σ
  /-- Method `(*database.Queries).CreatePost`. -/
  CreatePost : σ → database.CreatePostParams → Except GoError database.Post × σ
  /-- Method `(*database.Queries).GetPostsForUser`. -/
  GetPostsForUser : σ → database.GetPostsForUserParams → Except GoError (List database.Post) × σ
  /-- Method `(*database.Queries).GetFeedFollowsForUser`. -/
  GetFeedFollowsForUser : σ → UUID → Except GoError (List database.GetFeedFollowsForUserRow) × σ
  /-- Function `time.Now`. -/
  timeNow : σ → Instant × σ
  /-- Function `uuid.New`. -/
  uuidNew : σ → UUID × σ
  /-- Function `time.ParseDuration`. -/
  ParseDuration : String → Except GoError Duration
  /-- Function `strconv.Atoi`. -/
  Atoi : String → Except GoError Int
  /-- Function `html.UnescapeString`. -/
  UnescapeString : String → String
  /-- Function `http.NewRequestWithContext` with method GET and no body: the
  error it reports for the URL, if any. -/
  newRequestError : String → Option GoError
  /-- Method `(*http.Client).Do` followed by `io.ReadAll` of the body: the
  bytes, or the error of the first of the two that fails. -/
  doAndReadAll : σ → Request → Except GoError (List Nat) × σ
  /-- Function `xml.Unmarshal` into an empty `rss.Feed`: the feed as far as it
  was filled, and the error. -/
  xmlUnmarshal : List Nat → rss.Feed × Option GoError
  /-- Receiving from the channel of the ticker: the world when the next tick
  arrives. -/
  awaitTick : σ → σ

/-- The Go function `time.NewTicker`, by its documentation: "The duration d
must be greater than zero; if not, NewTicker will panic." -/
def NewTicker (d : Duration) : Outcome Unit :=
  if d ≤ 0 then Outcome.panic "non-positive interval for NewTicker" else Outcome.ret ()

/-! ## `main.go` -/

/-- The type `state`: the configuration, and behind the `Database` handle the
outside world together with the list of storage requests sent so far (oldest
first). -/
structure state (σ : Type) where
  Config : config.Config
  world : σ
  calls : List Call := []
  deriving DecidableEq, Repr

/-- The type `command`. -/
structure command where
  Name : String
  Args : List String := []
  deriving DecidableEq, Repr

/-- The type `Handler`. -/
abbrev Handler (σ : Type) := state σ → command → Outcome (Option GoError) × state σ

/-- The type `AuthRequiredHandler`. -/
abbrev AuthRequiredHandler (σ : Type) :=
  state σ → command → database.User → Outcome (Option GoError) × state σ

/-- The type `commands`: a Go map made with `make`, as `main` builds it. -/
structure commands (σ : Type) where
  Commands : String → Option (Handler σ)

/-- The registry `commands{Commands: make(map[string]Handler)}` of `main`. -/
def newCommands (σ : Type) : commands σ :=
  { Commands := fun _ => none }

/-- The method `commands.register`: the returned error and the registry after
the call. -/
def commands.register {σ : Type} (c : commands σ) (name : String) (handler : Handler σ) :
    Option GoError × commands σ :=
  (none, { Commands := fun k => if k = name then some handler else c.Commands k })

/-- The method `commands.run`. -/
def commands.run {σ : Type} (c : commands σ) (s : state σ) (cmd : command) :
    Outcome (Option GoError) × state σ :=
  match c.Commands cmd.Name with
  | none => (Outcome.ret (some (GoError.errorf ("Command `" ++ cmd.Name ++ "` does not exist"))), s)
  | some handler => handler s cmd

/-- A sequence of `register` calls, oldest first: the errors they return, in
order, and the registry after the last one. -/
def registerAll {σ : Type} (c : commands σ) :
    List (String × Handler σ) → List (Option GoError) × commands σ
  | [] => ([], c)
  | (name, handler) :: rest =>
    let r := c.register name handler
    let rs := registerAll r.2 rest
    (r.1 :: rs.1, rs.2)

/-- The specification of dispatch: the handler of the last registration of
`name` in the sequence, if there is one. -/
def lastRegistered {σ : Type} (regs : List (String × Handler σ)) (name : String) :
    Option (Handler σ) :=
  (regs.reverse.find? (fun p => p.1 == name)).map (fun p => p.2)

/-! ### Storage requests and library calls on the program state -/

/-- The call `s.Database.GetUserByName(ctx, name)`. -/
def state.GetUserByName {σ : Type} (env : Env σ) (s : state σ) (name : String) :
    Except GoError database.User × state σ :=
  let r := env.GetUserByName s.world name
  (r.1, { s with world := r.2, calls := s.calls ++ [Call.GetUserByName name] })

/-- The call `s.Database.GetNextFeedToFetch(ctx)`. -/
def state.GetNextFeedToFetch {σ : Type} (env : Env σ) (s : state σ) :
    Except GoError database.Feed × state σ :=
  let r := env.GetNextFeedToFetch s.world
  (r.1, { s with world := r.2, calls := s.calls ++ [Call.GetNextFeedToFetch] })

/-- The call `s.Database.MarkFeedFetched(ctx, params)`. -/
def state.MarkFeedFetched {σ : Type} (env : Env σ) (s : state σ)
    (params : database.MarkFeedFetchedParams) : Except GoError database.Feed × state σ :=
  let r := env.MarkFeedFetched s.world params
  (r.1, { s with world := r.2, calls := s.calls ++ [Call.MarkFeedFetched params] })

/-- The call `s.Database.CreatePost(ctx, params)`. -/
def state.CreatePost {σ : Type} (env : Env σ) (s : state σ)
    (params : database.CreatePostParams) : Except GoError database.Post × state σ :=
  let r := env.CreatePost s.world params
  (r.1, { s with world := r.2, calls := s.calls ++ [Call.CreatePost params] })

/-- The call `s.Database.GetPostsForUser(ctx, params)`. -/
def state.GetPostsForUser {σ : Type} (env : Env σ) (s : state σ)
    (params : database.GetPostsForUserParams) : Except GoError (List database.Post) × state σ :=
  let r := env.GetPostsForUser s.world params
  (r.1, { s with world := r.2, calls := s.calls ++ [Call.GetPostsForUser params] })

/-- The call `s.Database.GetFeedFollowsForUser(ctx, user.ID)`. -/
def state.GetFeedFollowsForUser {σ : Type} (env : Env σ) (s : state σ) (userID : UUID) :
    Except GoError (List database.GetFeedFollowsForUserRow) × state σ :=
  let r := env.GetFeedFollowsForUser s.world userID
  (r.1, { s with world := r.2, calls := s.calls ++ [Call.GetFeedFollowsForUser userID] })

/-- The call `time.Now()`. -/
def state.timeNow {σ : Type} (env : Env σ) (s : state σ) : Instant × state σ :=
  let r := env.timeNow s.world
  (r.1, { s with world := r.2 })

/-- The call `uuid.New()`. -/
def state.uuidNew {σ : Type} (env : Env σ) (s : state σ) : UUID × state σ :=
  let r := env.uuidNew s.world
  (r.1, { s with world := r.2 })

/-! ### `internal/rss/rss.go` -/

/-- The body of the loop `for _, i := range feed.Channel.Items` of
`unescapeText`: the loop variable `i` is a copy of the element, and the two
assignments of the body write to `i`. Returns the feed and `i` after the
body. -/
def unescapeText.body (unescape : String → String) (feed : rss.Feed) (elem : rss.Item) :
    rss.Feed × rss.Item :=
  let i := elem
  let i := { i with Title := unescape i.Title }
  let i := { i with Description := unescape i.Description }
  (feed, i)

/-- The function `unescapeText`; `unescape` is `html.UnescapeString`. -/
def unescapeText (unescape : String → String) (feed : rss.Feed) : rss.Feed :=
  let feed := { feed with Channel := { feed.Channel with Title := unescape feed.Channel.Title } }
  let feed :=
    { feed with Channel := { feed.Channel with Description := unescape feed.Channel.Description } }
  feed.Channel.Items.foldl (fun fd elem => (unescapeText.body unescape fd elem).1) feed

/-- The function `FetchFeed`: the returned feed and error, and the world after
the call. -/
def FetchFeed {σ : Type} (env : Env σ) (w : σ) (feedURL : String) :
    (rss.Feed × Option GoError) × σ :=
  match env.newRequestError feedURL with
  | some err => (({}, some err), w)
  | none =>
    let request : Request :=
      { method := "GET", url := feedURL,
        headers := [("Content-Type", "application/xml"), ("User-Agent", "gator")] }
    match env.doAndReadAll w request with
    | (Except.error err, w1) => (({}, some err), w1)
    | (Except.ok data, w1) =>
      match env.xmlUnmarshal data with
      | (parsedData, some err) => ((parsedData, some err), w1)
      | (parsedData, none) => ((unescapeText env.UnescapeString parsedData, none), w1)

/-! ### `main.go`, continued -/

/-- The function `middlewareLoggedIn`. The index expression `cmd.Args[0]`
panics when `cmd.Args` is empty. -/
def middlewareLoggedIn {σ : Type} (env : Env σ) (handler : AuthRequiredHandler σ) : Handler σ :=
  fun s cmd =>
    match s.GetUserByName env s.Config.CurrentUserName with
    | (Except.error _, s1) =>
      match cmd.Args with
      | [] => (Outcome.panic "runtime error: index out of range [0] with length 0", s1)
      | a :: _ =>
        (Outcome.ret (some (GoError.errorf ("User with name " ++ a ++ " does not exist"))), s1)
    | (Except.ok user, s1) => handler s1 cmd user

/-- The request `savePost` builds from the item, the feed id, and the values of
`uuid.New()` and of the two `time.Now()`. -/
def savePostParams (item : rss.Item) (feedID : UUID) (id : UUID) (createdAt updatedAt : Instant) :
    database.CreatePostParams :=
  { ID := id, CreatedAt := createdAt, UpdatedAt := updatedAt, Title := item.Title,
    Url := item.Link, Description := item.Description, PublishedAt := item.Pubdate,
    FeedID := feedID }

/-- The function `savePost`. -/
def savePost {σ : Type} (env : Env σ) (s : state σ) (item : rss.Item) (feedID : UUID) :
    (database.Post × Option GoError) × state σ :=
  let r1 := s.uuidNew env
  let r2 := r1.2.timeNow env
  let r3 := r2.2.timeNow env
  let params := savePostParams item feedID r1.1 r2.1 r3.1
  match r3.2.CreatePost env params with
  | (Except.error err, s4) =>
    (({}, some (GoError.wrapf ("Unable to save post " ++ item.Title ++ ": ") err)), s4)
  | (Except.ok post, s4) => ((post, none), s4)

/-- The loop `for _, f := range data.Channel.Items` of `scrapeFeeds`: the
error of `savePost` is logged and the loop continues. -/
def savePosts {σ : Type} (env : Env σ) (feedID : UUID) : List rss.Item → state σ → state σ
  | [], s => s
  | f :: rest, s => savePosts env feedID rest (savePost env s f feedID).2

/-- The function `scrapeFeeds`. -/
def scrapeFeeds {σ : Type} (env : Env σ) (s : state σ) : Option GoError × state σ :=
  match s.GetNextFeedToFetch env with
  | (Except.error err, s1) => (some (GoError.wrapf "Error finding next feed to fetch: " err), s1)
  | (Except.ok feed, s1) =>
    match FetchFeed env s1.world feed.Url with
    | ((_, some err), w2) =>
      (some (GoError.wrapf "Unable to fetch feed data: " err), { s1 with world := w2 })
    | ((data, none), w2) =>
      let s2 := { s1 with world := w2 }
      let t1 := s2.timeNow env
      let t2 := t1.2.timeNow env
      let params : database.MarkFeedFetchedParams :=
        { ID := feed.ID, LastFetchedAt := { Time := t1.1 }, UpdatedAt := t2.1 }
      match t2.2.MarkFeedFetched env params with
      | (Except.error err, s5) =>
        (some (GoError.wrapf "Unable to mark feed as fetched: " err), s5)
      | (Except.ok _, s5) => (none, savePosts env feed.ID data.Channel.Items s5)

/-- The loop `for ; ; <-ticker.C` of `handlerAgg`, run for at most `fuel`
iterations: `none` when the loop is still running after them. -/
def aggLoop {σ : Type} (env : Env σ) : Nat → state σ → Option (Outcome (Option GoError) × state σ)
  | 0, _ => none
  | fuel + 1, s =>
    match scrapeFeeds env s with
    | (some err, s1) => some (Outcome.ret (some (GoError.wrapf "Unable to fetch feed: " err)), s1)
    | (none, s1) => aggLoop env fuel { s1 with world := env.awaitTick s1.world }

/-- The function `handlerAgg`, with its loop bounded by `fuel` iterations. -/
def handlerAgg {σ : Type} (env : Env σ) (fuel : Nat) (s : state σ) (cmd : command) :
    Option (Outcome (Option GoError) × state σ) :=
  match cmd.Args with
  | [] => some (Outcome.ret (some (GoError.errorf "agg command requires an interval")), s)
  | intervalString :: _ =>
    match env.ParseDuration intervalString with
    | Except.error err =>
      some (Outcome.ret (some (GoError.wrapf "Unable to parse interval: " err)), s)
    | Except.ok interval =>
      match NewTicker interval with
      | Outcome.panic msg => some (Outcome.panic msg, s)
      | Outcome.ret _ => aggLoop env fuel s

/-- Lines 394 to 412 of `handlerBrowse`: the query with the limit converted to
`int32`. -/
def browseQuery {σ : Type} (env : Env σ) (s : state σ) (user : database.User) (limit : Int) :
    Outcome (Option GoError) × state σ :=
  let params : database.GetPostsForUserParams := { UserID := user.ID, Limit := toInt32 limit }
  match s.GetPostsForUser env params with
  | (Except.error err, s1) => (Outcome.ret (some (GoError.wrapf "Unable to get posts: " err)), s1)
  | (Except.ok _, s1) => (Outcome.ret none, s1)

/-- The function `handlerBrowse`. -/
def handlerBrowse {σ : Type} (env : Env σ) : AuthRequiredHandler σ :=
  fun s cmd user =>
    match cmd.Args with
    | [] => browseQuery env s user 2
    | a :: _ =>
      match env.Atoi a with
      | Except.error _ =>
        (Outcome.ret (some (GoError.errorf "limit argument must be a valid integer")), s)
      | Except.ok n => browseQuery env s user n

/-- The function `handlerFollowing`. -/
def handlerFollowing {σ : Type} (env : Env σ) : AuthRequiredHandler σ :=
  fun s _ user =>
    match s.GetFeedFollowsForUser env user.ID with
    | (Except.error err, s1) =>
      (Outcome.ret (some (GoError.wrapf "Unable to fetch follows for user: " err)), s1)
    | (Except.ok _, s1) => (Outcome.ret none, s1)


/-- The storage request `c` is the create-post request `savePost` builds for
`item` and `feedID`, for some fresh id and some two clock readings. -/
def isSavePostOf (feedID : UUID) (item : rss.Item) (c : Call) : Prop :=
  ∃ id createdAt updatedAt, c = Call.CreatePost (savePostParams item feedID id createdAt updatedAt)

/-- The state in which tick `k` of the loop of `handlerAgg` starts, when the
loop was entered in `s` and no earlier tick stopped it: after each tick the loop
waits for the ticker. -/
def tickStart {σ : Type} (env : Env σ) : Nat → state σ → state σ
  | 0, s => s
  | k + 1, s =>
    let s1 := (scrapeFeeds env s).2
    tickStart env k { s1 with world := env.awaitTick s1.world }

/-! ## A sample world

The world is a counter: reading the clock or drawing an id returns it and
advances it by one, waiting for the ticker advances it by 100. Storage offers
the feed `Blog` as long as the counter is below 100, a feed whose host is down
below 200, and no feed afterwards. -/

/-- The feed row of the sample world. -/
def sampleFeedRow : database.Feed :=
  { ID := 7, Name := "Blog", Url := "https://example.com/rss", UserID := 1 }

/-- The document behind the sample feed: the channel title and the title of the
first item are escaped, the link of the second item is already stored. -/
def sampleDocument : rss.Feed :=
  { Channel :=
    { Title := "A &amp; B", Link := "https://example.com", Description := "news",
      Items :=
        [{ Title := "A &amp; B", Link := "https://example.com/1", Description := "one", Pubdate := 5 },
         { Title := "second", Link := "https://example.com/dup", Description := "two", Pubdate := 6 }] } }

/-- The sample world. -/
def sampleEnv : Env Nat where
  GetUserByName w name :=
    if name = "alice" then (Except.ok { ID := 1, Name := "alice" }, w)
    else (Except.error (GoError.errorf "sql: no rows in result set"), w)
  GetNextFeedToFetch w :=
    if w < 100 then (Except.ok sampleFeedRow, w)
    else if w < 200 then
      (Except.ok { ID := 8, Name := "Down", Url := "https://down.example.com/rss", UserID := 1 }, w)
    else (Except.error (GoError.errorf "sql: no rows in result set"), w)
  MarkFeedFetched w arg :=
    (Except.ok { sampleFeedRow with LastFetchedAt := arg.LastFetchedAt, UpdatedAt := arg.UpdatedAt }, w)
  CreatePost w arg :=
    if arg.Url = "https://example.com/dup" then
      (Except.error (GoError.errorf "pq: duplicate key value violates unique constraint"), w)
    else
      (Except.ok
        { ID := arg.ID, CreatedAt := arg.CreatedAt, UpdatedAt := arg.UpdatedAt, Title := arg.Title,
          Url := arg.Url, Description := arg.Description, PublishedAt := arg.PublishedAt,
          FeedID := arg.FeedID }, w)
  GetPostsForUser w _ := (Except.ok [], w)
  GetFeedFollowsForUser w _ := (Except.ok [], w)
  timeNow w := (w, w + 1)
  uuidNew w := (w, w + 1)
  ParseDuration a :=
    if a = "1s" then Except.ok 1000000000
    else if a = "0s" then Except.ok 0
    else if a = "-1s" then Except.ok (-1000000000)
    else Except.error (GoError.errorf ("time: invalid duration " ++ a))
  Atoi a :=
    if a = "5" then Except.ok 5
    else if a = "2147483648" then Except.ok 2147483648
    else Except.error (GoError.errorf "strconv.Atoi: invalid syntax")
  UnescapeString a := if a = "A &amp; B" then "A & B" else a
  newRequestError _ := none
  doAndReadAll w req :=
    if req.url = "https://example.com/rss" then (Except.ok [60], w)
    else (Except.error (GoError.errorf "dial tcp: no such host"), w)
  xmlUnmarshal data :=
    if data = [60] then (sampleDocument, none) else ({}, some (GoError.errorf "EOF"))
  awaitTick w := w + 100

/-- A decoded feed whose channel title and whose single item title are both
escaped. -/
def escapedFeed : rss.Feed :=
  { Channel := { Title := "A &amp; B", Items := [{ Title := "A &amp; B" }] } }

/-- The state of a process whose configured user is `name`, at the start. -/
def sampleState (name : String) : state Nat :=
  { Config := { DbUrl := "postgres://localhost/gator", CurrentUserName := name }, world := 0 }

/-! ## Theorems -/

theorem lastRegistered_cons {σ : Type} (p : String × Handler σ) (rest : List (String × Handler σ))
    (name : String) :
    lastRegistered (p :: rest) name =
      match lastRegistered rest name with
      | some h => some h
      | none => if p.1 = name then some p.2 else none := by
  unfold lastRegistered
  rw [List.reverse_cons, List.find?_append]
  cases hfind : List.find? (fun p => p.1 == name) rest.reverse with
  | some q => simp
  | none =>
    by_cases hp : p.1 = name
    · simp [List.find?, hp]
    · have hb : (p.1 == name) = false := by simpa using hp
      simp [List.find?, hb, hp]

theorem registerAll_commands {σ : Type} (regs : List (String × Handler σ)) (c : commands σ)
    (name : String) :
    (registerAll c regs).2.Commands name =
      match lastRegistered regs name with
      | some h => some h
      | none => c.Commands name := by
  induction regs generalizing c with
  | nil => simp [registerAll, lastRegistered]
  | cons p rest ih =>
    obtain ⟨n, h⟩ := p
    simp only [registerAll]
    rw [ih, lastRegistered_cons]
    cases hl : lastRegistered rest name with
    | some q => simp
    | none =>
      by_cases hp : n = name
      · simp [commands.register, hp]
      · have hp2 : ¬ name = n := fun e => hp e.symm
        simp [commands.register, hp, hp2]

theorem registerAll_errors {σ : Type} (regs : List (String × Handler σ)) (c : commands σ) :
    (registerAll c regs).1 = List.replicate regs.length none := by
  induction regs generalizing c with
  | nil => simp [registerAll]
  | cons p rest ih =>
    obtain ⟨n, h⟩ := p
    simp [registerAll, ih, commands.register, List.replicate_succ]

/-- C1: after any sequence of `register` calls on the registry of `main`, every
`register` has returned nil, and `run` gives exactly what the handler of the last
registration of `cmd.Name` gives on the same state and command; when the name was
never registered, `run` returns the unknown-command error that names `cmd.Name`
and leaves the state as it was (no handler ran). -/
theorem run_dispatches_last_registered {σ : Type} (regs : List (String × Handler σ))
    (s : state σ) (cmd : command) :
    (registerAll (newCommands σ) regs).1 = List.replicate regs.length none ∧
    (registerAll (newCommands σ) regs).2.run s cmd =
      match lastRegistered regs cmd.Name with
      | some handler => handler s cmd
      | none =>
        (Outcome.ret (some (GoError.errorf ("Command `" ++ cmd.Name ++ "` does not exist"))), s) := by
  refine ⟨registerAll_errors regs _, ?_⟩
  unfold commands.run
  rw [registerAll_commands]
  cases hl : lastRegistered regs cmd.Name with
  | some q => simp
  | none => simp [newCommands]

/-! ### `savePost` -/

theorem savePost_eq {σ : Type} (env : Env σ) (s : state σ) (item : rss.Item) (feedID : UUID) :
    savePost env s item feedID =
      let w1 := env.uuidNew s.world
      let w2 := env.timeNow w1.2
      let w3 := env.timeNow w2.2
      let params := savePostParams item feedID w1.1 w2.1 w3.1
      let r := env.CreatePost w3.2 params
      (match r.1 with
        | Except.ok post => (post, none)
        | Except.error err =>
          ({}, some (GoError.wrapf ("Unable to save post " ++ item.Title ++ ": ") err)),
       { s with world := r.2, calls := s.calls ++ [Call.CreatePost params] }) := by
  simp only [savePost, state.uuidNew, state.timeNow, state.CreatePost]
  split <;> rename_i h <;> simp only [Prod.mk.injEq] at h <;> obtain ⟨h1, h2⟩ := h <;>
    simp [← h2, h1]

/-- C8: `savePost` sends storage exactly one request, a create-post request
whose title, url, description and published_at are the Title, Link, Description
and Pubdate of the item and whose feed id is the given one; it returns the
stored post and a nil error when storage succeeds, and the empty post with an
error that wraps the storage error when storage fails. -/
theorem savePost_sends_one_create_post {σ : Type} (env : Env σ) (s : state σ) (item : rss.Item)
    (feedID : UUID) :
    ∃ params : database.CreatePostParams,
      params.Title = item.Title ∧ params.Url = item.Link ∧
      params.Description = item.Description ∧ params.PublishedAt = item.Pubdate ∧
      params.FeedID = feedID ∧
      (savePost env s item feedID).2.calls = s.calls ++ [Call.CreatePost params] ∧
      (savePost env s item feedID).1 =
        (match (env.CreatePost (env.timeNow (env.timeNow (env.uuidNew s.world).2).2).2 params).1 with
          | Except.ok post => (post, none)
          | Except.error err =>
            ({}, some (GoError.wrapf ("Unable to save post " ++ item.Title ++ ": ") err))) := by
  refine ⟨savePostParams item feedID (env.uuidNew s.world).1
    (env.timeNow (env.uuidNew s.world).2).1
    (env.timeNow (env.timeNow (env.uuidNew s.world).2).2).1, rfl, rfl, rfl, rfl, rfl, ?_, ?_⟩
  · rw [savePost_eq]
  · rw [savePost_eq]

theorem savePost_calls {σ : Type} (env : Env σ) (s : state σ) (item : rss.Item) (feedID : UUID) :
    ∃ id createdAt updatedAt, (savePost env s item feedID).2.calls =
      s.calls ++ [Call.CreatePost (savePostParams item feedID id createdAt updatedAt)] := by
  rw [savePost_eq]
  exact ⟨_, _, _, rfl⟩

theorem savePosts_calls {σ : Type} (env : Env σ) (feedID : UUID) (items : List rss.Item)
    (s : state σ) :
    ∃ sent, (savePosts env feedID items s).calls = s.calls ++ sent ∧
      List.Forall₂ (isSavePostOf feedID) items sent := by
  induction items generalizing s with
  | nil => exact ⟨[], by simp [savePosts], List.Forall₂.nil⟩
  | cons item rest ih =>
    obtain ⟨sent, hcalls, hall⟩ := ih (savePost env s item feedID).2
    obtain ⟨id, c, u, hone⟩ := savePost_calls env s item feedID
    refine ⟨Call.CreatePost (savePostParams item feedID id c u) :: sent, ?_,
      List.Forall₂.cons ⟨id, c, u, rfl⟩ hall⟩
    simp only [savePosts]
    rw [hcalls, hone]
    simp

/-! ### `scrapeFeeds` -/

theorem scrapeFeeds_select_error {σ : Type} (env : Env σ) (s : state σ) (cause : GoError)
    (hsel : (env.GetNextFeedToFetch s.world).1 = Except.error cause) :
    scrapeFeeds env s =
      (some (GoError.wrapf "Error finding next feed to fetch: " cause),
       { s with world := (env.GetNextFeedToFetch s.world).2,
                calls := s.calls ++ [Call.GetNextFeedToFetch] }) := by
  simp only [scrapeFeeds, state.GetNextFeedToFetch, hsel]

theorem scrapeFeeds_fetch_error {σ : Type} (env : Env σ) (s : state σ) (feed : database.Feed)
    (cause : GoError)
    (hsel : (env.GetNextFeedToFetch s.world).1 = Except.ok feed)
    (hfetch : (FetchFeed env (env.GetNextFeedToFetch s.world).2 feed.Url).1.2 = some cause) :
    scrapeFeeds env s =
      (some (GoError.wrapf "Unable to fetch feed data: " cause),
       { s with world := (FetchFeed env (env.GetNextFeedToFetch s.world).2 feed.Url).2,
                calls := s.calls ++ [Call.GetNextFeedToFetch] }) := by
  simp only [scrapeFeeds, state.GetNextFeedToFetch, hsel]
  split
  · rename_i h
    rw [h] at hfetch
    simp only [Option.some.injEq] at hfetch
    simp [h, hfetch]
  · rename_i h
    rw [h] at hfetch
    simp at hfetch

theorem scrapeFeeds_fetched {σ : Type} (env : Env σ) (s : state σ) (feed : database.Feed)
    (data : rss.Feed) (w1 w2 : σ)
    (hsel : env.GetNextFeedToFetch s.world = (Except.ok feed, w1))
    (hfetch : FetchFeed env w1 feed.Url = ((data, none), w2)) :
    scrapeFeeds env s =
      let t1 := env.timeNow w2
      let t2 := env.timeNow t1.2
      let params : database.MarkFeedFetchedParams :=
        { ID := feed.ID, LastFetchedAt := { Time := t1.1, Valid := false }, UpdatedAt := t2.1 }
      let r := env.MarkFeedFetched t2.2 params
      let s5 : state σ :=
        { s with world := r.2,
                 calls := s.calls ++ [Call.GetNextFeedToFetch, Call.MarkFeedFetched params] }
      match r.1 with
      | Except.error err => (some (GoError.wrapf "Unable to mark feed as fetched: " err), s5)
      | Except.ok _ => (none, savePosts env feed.ID data.Channel.Items s5) := by
  simp only [scrapeFeeds, state.GetNextFeedToFetch, hsel, hfetch, state.timeNow,
    state.MarkFeedFetched]
  split <;> rename_i h <;> simp only [Prod.mk.injEq] at h <;> obtain ⟨h1, h2⟩ := h <;>
    simp [← h2, h1]


/-- C4 (the code sends NULL): in a tick in which selecting the next feed and
fetching it succeed, the mark-fetched request is the second storage request of
the tick and carries the id of the claimed feed and the reading of the clock,
but its `last_fetched_at` is marked not valid, which storage receives as NULL. -/
theorem scrapeFeeds_marks_fetched_not_valid {σ : Type} (env : Env σ) (s : state σ)
    (feed : database.Feed) (data : rss.Feed) (w1 w2 : σ)
    (hsel : env.GetNextFeedToFetch s.world = (Except.ok feed, w1))
    (hfetch : FetchFeed env w1 feed.Url = ((data, none), w2)) :
    ∃ rest, (scrapeFeeds env s).2.calls =
      s.calls ++
        [Call.GetNextFeedToFetch,
         Call.MarkFeedFetched
          { ID := feed.ID,
            LastFetchedAt := { Time := (env.timeNow w2).1, Valid := false },
            UpdatedAt := (env.timeNow (env.timeNow w2).2).1 }] ++ rest := by
  rw [scrapeFeeds_fetched env s feed data w1 w2 hsel hfetch]
  simp only
  split
  · exact ⟨[], by simp⟩
  · obtain ⟨sent, hcalls, _⟩ := savePosts_calls env feed.ID data.Channel.Items
      { s with
        world := (env.MarkFeedFetched (env.timeNow (env.timeNow w2).2).2
          { ID := feed.ID,
            LastFetchedAt := { Time := (env.timeNow w2).1, Valid := false },
            UpdatedAt := (env.timeNow (env.timeNow w2).2).1 }).2,
        calls := s.calls ++
          [Call.GetNextFeedToFetch,
           Call.MarkFeedFetched
            { ID := feed.ID,
              LastFetchedAt := { Time := (env.timeNow w2).1, Valid := false },
              UpdatedAt := (env.timeNow (env.timeNow w2).2).1 }] }
    exact ⟨sent, hcalls⟩

theorem scrapeFeeds_marks_fetched_not_valid_witness :
    sampleEnv.GetNextFeedToFetch (sampleState "alice").world = (Except.ok sampleFeedRow, 0) ∧
    FetchFeed sampleEnv 0 sampleFeedRow.Url =
      ((unescapeText sampleEnv.UnescapeString sampleDocument, none), 0) ∧
    ∃ rest, (scrapeFeeds sampleEnv (sampleState "alice")).2.calls =
      (sampleState "alice").calls ++
        [Call.GetNextFeedToFetch,
         Call.MarkFeedFetched
          { ID := sampleFeedRow.ID,
            LastFetchedAt := { Time := (sampleEnv.timeNow 0).1, Valid := false },
            UpdatedAt := (sampleEnv.timeNow (sampleEnv.timeNow 0).2).1 }] ++ rest :=
  ⟨rfl, rfl, scrapeFeeds_marks_fetched_not_valid sampleEnv (sampleState "alice") sampleFeedRow
    (unescapeText sampleEnv.UnescapeString sampleDocument) 0 0 rfl rfl⟩

/-- C5: in a tick in which selecting the feed, fetching it and marking it
fetched succeed, `scrapeFeeds` returns nil and the storage requests after the
mark-fetched request are the create-post requests of `savePost`, one for each
item of the fetched feed, in document order, each with the id of the claimed
feed, whatever storage answers to each of them. -/
theorem scrapeFeeds_saves_every_item {σ : Type} (env : Env σ) (s : state σ)
    (feed : database.Feed) (data : rss.Feed) (w1 w2 : σ) (row : database.Feed)
    (hsel : env.GetNextFeedToFetch s.world = (Except.ok feed, w1))
    (hfetch : FetchFeed env w1 feed.Url = ((data, none), w2))
    (hmark : (env.MarkFeedFetched (env.timeNow (env.timeNow w2).2).2
      { ID := feed.ID,
        LastFetchedAt := { Time := (env.timeNow w2).1, Valid := false },
        UpdatedAt := (env.timeNow (env.timeNow w2).2).1 }).1 = Except.ok row) :
    (scrapeFeeds env s).1 = none ∧
    ∃ marked sent, (scrapeFeeds env s).2.calls =
        s.calls ++ [Call.GetNextFeedToFetch, Call.MarkFeedFetched marked] ++ sent ∧
      marked.ID = feed.ID ∧
      List.Forall₂ (isSavePostOf feed.ID) data.Channel.Items sent := by
  rw [scrapeFeeds_fetched env s feed data w1 w2 hsel hfetch]
  simp only [hmark]
  obtain ⟨sent, hcalls, hall⟩ := savePosts_calls env feed.ID data.Channel.Items
    { s with
      world := (env.MarkFeedFetched (env.timeNow (env.timeNow w2).2).2
        { ID := feed.ID,
          LastFetchedAt := { Time := (env.timeNow w2).1, Valid := false },
          UpdatedAt := (env.timeNow (env.timeNow w2).2).1 }).2,
      calls := s.calls ++
        [Call.GetNextFeedToFetch,
         Call.MarkFeedFetched
          { ID := feed.ID,
            LastFetchedAt := { Time := (env.timeNow w2).1, Valid := false },
            UpdatedAt := (env.timeNow (env.timeNow w2).2).1 }] }
  exact ⟨trivial, _, sent, hcalls, rfl, hall⟩


theorem scrapeFeeds_saves_every_item_witness :
    sampleEnv.GetNextFeedToFetch (sampleState "alice").world = (Except.ok sampleFeedRow, 0) ∧
    FetchFeed sampleEnv 0 sampleFeedRow.Url =
      ((unescapeText sampleEnv.UnescapeString sampleDocument, none), 0) ∧
    (scrapeFeeds sampleEnv (sampleState "alice")).1 = none ∧
    ∃ marked sent, (scrapeFeeds sampleEnv (sampleState "alice")).2.calls =
        (sampleState "alice").calls ++
          [Call.GetNextFeedToFetch, Call.MarkFeedFetched marked] ++ sent ∧
      marked.ID = sampleFeedRow.ID ∧
      List.Forall₂ (isSavePostOf sampleFeedRow.ID)
        (unescapeText sampleEnv.UnescapeString sampleDocument).Channel.Items sent :=
  ⟨rfl, rfl, scrapeFeeds_saves_every_item sampleEnv (sampleState "alice") sampleFeedRow
    (unescapeText sampleEnv.UnescapeString sampleDocument) 0 0
    { sampleFeedRow with UpdatedAt := 1 } rfl rfl rfl⟩

/-! ### `handlerAgg` -/

theorem handlerAgg_loop {σ : Type} (env : Env σ) (fuel : Nat) (s : state σ) (cmd : command)
    (a : String) (rest : List String) (d : Duration)
    (hargs : cmd.Args = a :: rest) (hparse : env.ParseDuration a = Except.ok d) (hpos : 0 < d) :
    handlerAgg env fuel s cmd = aggLoop env fuel s := by
  have hd : ¬ d ≤ 0 := not_le.mpr hpos
  simp only [handlerAgg, hargs, hparse, NewTicker, hd, if_false]

theorem aggLoop_stops {σ : Type} (env : Env σ) (k : Nat) :
    ∀ (fuel : Nat) (s : state σ) (err : GoError),
      (∀ j, j < k → (scrapeFeeds env (tickStart env j s)).1 = none) →
      (scrapeFeeds env (tickStart env k s)).1 = some err →
      k < fuel →
      aggLoop env fuel s =
        some (Outcome.ret (some (GoError.wrapf "Unable to fetch feed: " err)),
          (scrapeFeeds env (tickStart env k s)).2) := by
  induction k with
  | zero =>
    intro fuel s err _ hfail hfuel
    obtain ⟨n, rfl⟩ : ∃ n, fuel = n + 1 := ⟨fuel - 1, by omega⟩
    simp only [tickStart] at hfail ⊢
    simp only [aggLoop]
    split
    · rename_i e s1 h
      rw [h] at hfail
      simp only [Option.some.injEq] at hfail
      rw [h, hfail]
    · rename_i s1 h
      rw [h] at hfail
      simp at hfail
  | succ k ih =>
    intro fuel s err hok hfail hfuel
    obtain ⟨n, rfl⟩ : ∃ n, fuel = n + 1 := ⟨fuel - 1, by omega⟩
    have h0 : (scrapeFeeds env s).1 = none := hok 0 (Nat.succ_pos k)
    simp only [tickStart] at hfail ⊢
    simp only [aggLoop]
    split
    · rename_i e s1 h
      rw [h] at h0
      simp at h0
    · rename_i s1 h
      have hs1 : (scrapeFeeds env s).2 = s1 := by rw [h]
      rw [hs1] at hfail
      rw [hs1]
      refine ih n _ err ?_ hfail (by omega)
      intro j hj
      have := hok (j + 1) (by omega)
      simp only [tickStart] at this
      rw [hs1] at this
      exact this

/-- C6: when selecting the next feed fails, or selecting succeeds and fetching
the selected feed fails, `scrapeFeeds` returns an error that wraps the cause and
the only storage request of the tick is the selection (no mark-fetched, no
create-post); and `handlerAgg`, entered with a positive interval, returns an
error that wraps the error of the first tick whose `scrapeFeeds` fails, in
the state that tick left (no later tick ran), provided the bound on the loop
exceeds the number of that tick. -/
theorem scrapeFeeds_failure_ends_agg {σ : Type} (env : Env σ) :
    (∀ (s : state σ) (cause : GoError),
      ((env.GetNextFeedToFetch s.world).1 = Except.error cause ∨
        ∃ feed, (env.GetNextFeedToFetch s.world).1 = Except.ok feed ∧
          (FetchFeed env (env.GetNextFeedToFetch s.world).2 feed.Url).1.2 = some cause) →
      (∃ msg, (scrapeFeeds env s).1 = some (GoError.wrapf msg cause)) ∧
      (scrapeFeeds env s).2.calls = s.calls ++ [Call.GetNextFeedToFetch]) ∧
    (∀ (s : state σ) (cmd : command) (a : String) (rest : List String) (d : Duration)
      (k fuel : Nat) (err : GoError),
      cmd.Args = a :: rest → env.ParseDuration a = Except.ok d → 0 < d →
      (∀ j, j < k → (scrapeFeeds env (tickStart env j s)).1 = none) →
      (scrapeFeeds env (tickStart env k s)).1 = some err →
      k < fuel →
      handlerAgg env fuel s cmd =
        some (Outcome.ret (some (GoError.wrapf "Unable to fetch feed: " err)),
          (scrapeFeeds env (tickStart env k s)).2)) := by
  constructor
  · intro s cause h
    rcases h with h | ⟨feed, hsel, hfetch⟩
    · rw [scrapeFeeds_select_error env s cause h]
      exact ⟨⟨_, rfl⟩, rfl⟩
    · rw [scrapeFeeds_fetch_error env s feed cause hsel hfetch]
      exact ⟨⟨_, rfl⟩, rfl⟩
  · intro s cmd a rest d k fuel err hargs hparse hpos hok hfail hfuel
    rw [handlerAgg_loop env fuel s cmd a rest d hargs hparse hpos]
    exact aggLoop_stops env k fuel s err hok hfail hfuel


theorem scrapeFeeds_failure_ends_agg_witness :
    (sampleEnv.GetNextFeedToFetch ({ sampleState "alice" with world := 200 } : state Nat).world).1 =
      Except.error (GoError.errorf "sql: no rows in result set") ∧
    ((∃ msg, (scrapeFeeds sampleEnv { sampleState "alice" with world := 200 }).1 =
        some (GoError.wrapf msg (GoError.errorf "sql: no rows in result set"))) ∧
      (scrapeFeeds sampleEnv { sampleState "alice" with world := 200 }).2.calls =
        ({ sampleState "alice" with world := 200 } : state Nat).calls ++
          [Call.GetNextFeedToFetch]) ∧
    ((∃ msg, (scrapeFeeds sampleEnv (tickStart sampleEnv 1 (sampleState "alice"))).1 =
        some (GoError.wrapf msg (GoError.errorf "dial tcp: no such host"))) ∧
      (scrapeFeeds sampleEnv (tickStart sampleEnv 1 (sampleState "alice"))).2.calls =
        (tickStart sampleEnv 1 (sampleState "alice")).calls ++ [Call.GetNextFeedToFetch]) ∧
    (scrapeFeeds sampleEnv (tickStart sampleEnv 0 (sampleState "alice"))).1 = none ∧
    (scrapeFeeds sampleEnv (tickStart sampleEnv 1 (sampleState "alice"))).1 =
      some (GoError.wrapf "Unable to fetch feed data: "
        (GoError.errorf "dial tcp: no such host")) ∧
    handlerAgg sampleEnv 2 (sampleState "alice") { Name := "agg", Args := ["1s"] } =
      some (Outcome.ret (some (GoError.wrapf "Unable to fetch feed: "
          (GoError.wrapf "Unable to fetch feed data: "
            (GoError.errorf "dial tcp: no such host")))),
        (scrapeFeeds sampleEnv (tickStart sampleEnv 1 (sampleState "alice"))).2) :=
  ⟨rfl,
   (scrapeFeeds_failure_ends_agg sampleEnv).1 { sampleState "alice" with world := 200 }
     (GoError.errorf "sql: no rows in result set") (Or.inl rfl),
   (scrapeFeeds_failure_ends_agg sampleEnv).1 (tickStart sampleEnv 1 (sampleState "alice"))
     (GoError.errorf "dial tcp: no such host")
     (Or.inr ⟨{ ID := 8, Name := "Down", Url := "https://down.example.com/rss", UserID := 1 },
       rfl, rfl⟩),
   rfl, rfl,
   (scrapeFeeds_failure_ends_agg sampleEnv).2 (sampleState "alice")
     { Name := "agg", Args := ["1s"] } "1s" [] 1000000000 1 2
     (GoError.wrapf "Unable to fetch feed data: " (GoError.errorf "dial tcp: no such host"))
     rfl rfl (by decide)
     (fun j hj => by
      obtain rfl : j = 0 := by omega
      rfl)
     rfl (by decide)⟩

/-- C7: when the command has no argument, or its first argument is not a
parseable duration, `handlerAgg` returns a non-nil error for every bound on the
loop, in the state it was entered with: no storage request was sent, so
`scrapeFeeds`, which starts with one, did not run. -/
theorem handlerAgg_rejects_bad_interval {σ : Type} (env : Env σ) (fuel : Nat) (s : state σ)
    (cmd : command)
    (hbad : cmd.Args = [] ∨
      ∃ a rest cause, cmd.Args = a :: rest ∧ env.ParseDuration a = Except.error cause) :
    ∃ err, handlerAgg env fuel s cmd = some (Outcome.ret (some err), s) := by
  rcases hbad with h | ⟨a, rest, cause, h, hparse⟩
  · refine ⟨GoError.errorf "agg command requires an interval", ?_⟩
    simp only [handlerAgg, h]
  · refine ⟨GoError.wrapf "Unable to parse interval: " cause, ?_⟩
    simp only [handlerAgg, h, hparse]

theorem handlerAgg_rejects_bad_interval_witness :
    sampleEnv.ParseDuration "abc" = Except.error (GoError.errorf "time: invalid duration abc") ∧
    (∃ err, handlerAgg sampleEnv 3 (sampleState "alice") { Name := "agg", Args := ["abc"] } =
      some (Outcome.ret (some err), sampleState "alice")) ∧
    ∃ err, handlerAgg sampleEnv 3 (sampleState "alice") { Name := "agg", Args := [] } =
      some (Outcome.ret (some err), sampleState "alice") :=
  ⟨rfl,
   handlerAgg_rejects_bad_interval sampleEnv 3 (sampleState "alice")
     { Name := "agg", Args := ["abc"] } (Or.inr ⟨"abc", [], _, rfl, rfl⟩),
   handlerAgg_rejects_bad_interval sampleEnv 3 (sampleState "alice")
     { Name := "agg", Args := [] } (Or.inl rfl)⟩

theorem scrapeFeeds_sends_select {σ : Type} (env : Env σ) (s : state σ) :
    ∃ rest, (scrapeFeeds env s).2.calls = s.calls ++ Call.GetNextFeedToFetch :: rest := by
  rcases hsel : env.GetNextFeedToFetch s.world with ⟨r, w1⟩
  cases r with
  | error cause =>
    have h1 : (env.GetNextFeedToFetch s.world).1 = Except.error cause := by rw [hsel]
    rw [scrapeFeeds_select_error env s cause h1]
    exact ⟨[], rfl⟩
  | ok feed =>
    have h1 : (env.GetNextFeedToFetch s.world).1 = Except.ok feed := by rw [hsel]
    rcases hfetch : FetchFeed env w1 feed.Url with ⟨⟨data, oe⟩, w2⟩
    cases oe with
    | some cause =>
      have h2 : (FetchFeed env (env.GetNextFeedToFetch s.world).2 feed.Url).1.2 = some cause := by
        rw [hsel]
        simp only [hfetch]
      rw [scrapeFeeds_fetch_error env s feed cause h1 h2]
      exact ⟨[], rfl⟩
    | none =>
      rw [scrapeFeeds_fetched env s feed data w1 w2 hsel hfetch]
      simp only
      split
      · exact ⟨[_], rfl⟩
      · obtain ⟨sent, hcalls, _⟩ := savePosts_calls env feed.ID data.Channel.Items
          { s with
            world := (env.MarkFeedFetched (env.timeNow (env.timeNow w2).2).2
              { ID := feed.ID,
                LastFetchedAt := { Time := (env.timeNow w2).1, Valid := false },
                UpdatedAt := (env.timeNow (env.timeNow w2).2).1 }).2,
            calls := s.calls ++
              [Call.GetNextFeedToFetch,
               Call.MarkFeedFetched
                { ID := feed.ID,
                  LastFetchedAt := { Time := (env.timeNow w2).1, Valid := false },
                  UpdatedAt := (env.timeNow (env.timeNow w2).2).1 }] }
        rw [hcalls]
        simp only [List.append_assoc, List.cons_append, List.nil_append]
        exact ⟨_, rfl⟩

/-- C9 (the code panics): when the first argument parses as a duration that is
zero or negative, `handlerAgg` panics in `time.NewTicker` for every bound on the
loop, in the state it was entered with: the first tick is not reached. -/
theorem handlerAgg_panics_on_nonpositive_interval {σ : Type} (env : Env σ) (fuel : Nat)
    (s : state σ) (cmd : command) (a : String) (rest : List String) (d : Duration)
    (hargs : cmd.Args = a :: rest) (hparse : env.ParseDuration a = Except.ok d) (hd : d ≤ 0) :
    handlerAgg env fuel s cmd =
      some (Outcome.panic "non-positive interval for NewTicker", s) := by
  simp only [handlerAgg, hargs, hparse, NewTicker, hd, if_true]

theorem handlerAgg_panics_on_nonpositive_interval_witness :
    sampleEnv.ParseDuration "0s" = Except.ok 0 ∧
    handlerAgg sampleEnv 3 (sampleState "alice") { Name := "agg", Args := ["0s"] } =
      some (Outcome.panic "non-positive interval for NewTicker", sampleState "alice") ∧
    sampleEnv.ParseDuration "-1s" = Except.ok (-1000000000) ∧
    handlerAgg sampleEnv 3 (sampleState "alice") { Name := "agg", Args := ["-1s"] } =
      some (Outcome.panic "non-positive interval for NewTicker", sampleState "alice") :=
  ⟨rfl,
   handlerAgg_panics_on_nonpositive_interval sampleEnv 3 (sampleState "alice")
     { Name := "agg", Args := ["0s"] } "0s" [] 0 rfl rfl (by decide),
   rfl,
   handlerAgg_panics_on_nonpositive_interval sampleEnv 3 (sampleState "alice")
     { Name := "agg", Args := ["-1s"] } "-1s" [] (-1000000000) rfl rfl (by decide)⟩

theorem handlerAgg_first_tick_immediate {σ : Type} (env : Env σ) (fuel : Nat)
    (s : state σ) (cmd : command) (a : String) (rest : List String) (d : Duration)
    (hargs : cmd.Args = a :: rest) (hparse : env.ParseDuration a = Except.ok d) (hd : 0 < d) :
    handlerAgg env (fuel + 1) s cmd =
      match scrapeFeeds env s with
      | (some err, s1) =>
        some (Outcome.ret (some (GoError.wrapf "Unable to fetch feed: " err)), s1)
      | (none, s1) => aggLoop env fuel { s1 with world := env.awaitTick s1.world } := by
  rw [handlerAgg_loop env (fuel + 1) s cmd a rest d hargs hparse hd]
  simp only [aggLoop]


/-! ### `handlerBrowse` -/

theorem browseQuery_calls {σ : Type} (env : Env σ) (s : state σ) (user : database.User)
    (limit : Int) :
    (browseQuery env s user limit).2.calls =
      s.calls ++ [Call.GetPostsForUser { UserID := user.ID, Limit := toInt32 limit }] := by
  simp only [browseQuery, state.GetPostsForUser]
  split <;> rename_i h <;> simp only [Prod.mk.injEq] at h <;> rw [← h.2]

theorem toInt32_of_range (n : Int) (hlo : -2 ^ 31 ≤ n) (hhi : n < 2 ^ 31) : toInt32 n = n := by
  unfold toInt32
  rw [Int.emod_eq_of_lt (by omega) (by omega)]
  omega

theorem handlerBrowse_default_limit {σ : Type} (env : Env σ) (s : state σ) (cmd : command)
    (user : database.User) (hargs : cmd.Args = []) :
    (handlerBrowse env s cmd user).2.calls =
      s.calls ++ [Call.GetPostsForUser { UserID := user.ID, Limit := 2 }] := by
  simp only [handlerBrowse, hargs, browseQuery_calls]
  rfl

theorem handlerBrowse_limit_in_range {σ : Type} (env : Env σ) (s : state σ) (cmd : command)
    (user : database.User) (a : String) (rest : List String) (n : Int)
    (hargs : cmd.Args = a :: rest) (hatoi : env.Atoi a = Except.ok n)
    (hlo : -2 ^ 31 ≤ n) (hhi : n < 2 ^ 31) :
    (handlerBrowse env s cmd user).2.calls =
      s.calls ++ [Call.GetPostsForUser { UserID := user.ID, Limit := n }] := by
  simp only [handlerBrowse, hargs, hatoi, browseQuery_calls, toInt32_of_range n hlo hhi]

theorem handlerBrowse_rejects_non_integer {σ : Type} (env : Env σ) (s : state σ) (cmd : command)
    (user : database.User) (a : String) (rest : List String) (cause : GoError)
    (hargs : cmd.Args = a :: rest) (hatoi : env.Atoi a = Except.error cause) :
    handlerBrowse env s cmd user =
      (Outcome.ret (some (GoError.errorf "limit argument must be a valid integer")), s) := by
  simp only [handlerBrowse, hargs, hatoi]

/-- C10 (the code truncates): when the first argument parses as an integer `n`
of at least 2^31 (and within the 64 bit `int`), the limit `handlerBrowse` passes
to the posts query is `int32(n)`, which is `n - 2^32 * k` for some `k ≥ 1` and so
is smaller than `n`. -/
theorem handlerBrowse_limit_wraps {σ : Type} (env : Env σ) (s : state σ) (cmd : command)
    (user : database.User) (a : String) (rest : List String) (n : Int)
    (hargs : cmd.Args = a :: rest) (hatoi : env.Atoi a = Except.ok n)
    (hbig : 2 ^ 31 ≤ n) :
    (handlerBrowse env s cmd user).2.calls =
      s.calls ++ [Call.GetPostsForUser { UserID := user.ID, Limit := toInt32 n }] ∧
    toInt32 n < 2 ^ 31 ∧ toInt32 n < n := by
  refine ⟨by simp only [handlerBrowse, hargs, hatoi, browseQuery_calls], ?_⟩
  unfold toInt32
  have h := Int.emod_lt_of_pos (n + 2 ^ 31) (show (0 : Int) < 2 ^ 32 by norm_num)
  constructor <;> omega

theorem handlerBrowse_limit_wraps_witness :
    sampleEnv.Atoi "2147483648" = Except.ok 2147483648 ∧
    (handlerBrowse sampleEnv (sampleState "alice") { Name := "browse", Args := ["2147483648"] }
        { ID := 1, Name := "alice" }).2.calls =
      (sampleState "alice").calls ++
        [Call.GetPostsForUser { UserID := 1, Limit := toInt32 2147483648 }] ∧
    toInt32 2147483648 = -2147483648 ∧
    toInt32 2147483648 < 2 ^ 31 ∧ toInt32 2147483648 < 2147483648 :=
  ⟨rfl,
   (handlerBrowse_limit_wraps sampleEnv (sampleState "alice")
     { Name := "browse", Args := ["2147483648"] } { ID := 1, Name := "alice" }
     "2147483648" [] 2147483648 rfl rfl (by decide)).1,
   by decide,
   (handlerBrowse_limit_wraps sampleEnv (sampleState "alice")
     { Name := "browse", Args := ["2147483648"] } { ID := 1, Name := "alice" }
     "2147483648" [] 2147483648 rfl rfl (by decide)).2⟩

/-! ### `middlewareLoggedIn` -/

theorem middlewareLoggedIn_rejects_unknown_user {σ : Type} (env : Env σ)
    (handler : AuthRequiredHandler σ) (s : state σ) (cmd : command) (cause : GoError)
    (a : String) (rest : List String)
    (hlookup : (env.GetUserByName s.world s.Config.CurrentUserName).1 = Except.error cause)
    (hargs : cmd.Args = a :: rest) :
    middlewareLoggedIn env handler s cmd =
      (Outcome.ret (some (GoError.errorf ("User with name " ++ a ++ " does not exist"))),
       (s.GetUserByName env s.Config.CurrentUserName).2) := by
  simp only [middlewareLoggedIn, state.GetUserByName, hlookup, hargs]

/-- C2 (the code panics): when looking up the configured user fails and the
command has no argument, the handler made by `middlewareLoggedIn` panics on
`cmd.Args[0]` instead of returning an error; the state is the one the lookup
left, so the wrapped handler did not run. -/
theorem middlewareLoggedIn_panics_without_args {σ : Type} (env : Env σ)
    (handler : AuthRequiredHandler σ) (s : state σ) (cmd : command) (cause : GoError)
    (hlookup : (env.GetUserByName s.world s.Config.CurrentUserName).1 = Except.error cause)
    (hargs : cmd.Args = []) :
    middlewareLoggedIn env handler s cmd =
      (Outcome.panic "runtime error: index out of range [0] with length 0",
       (s.GetUserByName env s.Config.CurrentUserName).2) := by
  simp only [middlewareLoggedIn, state.GetUserByName, hlookup, hargs]

theorem middlewareLoggedIn_panics_without_args_witness :
    (sampleEnv.GetUserByName (sampleState "bob").world
        (sampleState "bob").Config.CurrentUserName).1 =
      Except.error (GoError.errorf "sql: no rows in result set") ∧
    middlewareLoggedIn sampleEnv (handlerFollowing sampleEnv) (sampleState "bob")
        { Name := "following", Args := [] } =
      (Outcome.panic "runtime error: index out of range [0] with length 0",
       ((sampleState "bob").GetUserByName sampleEnv (sampleState "bob").Config.CurrentUserName).2) :=
  ⟨rfl,
   middlewareLoggedIn_panics_without_args sampleEnv (handlerFollowing sampleEnv)
     (sampleState "bob") { Name := "following", Args := [] }
     (GoError.errorf "sql: no rows in result set") rfl rfl⟩

/-! ### `unescapeText` -/

theorem unescapeText_fold (unescape : String → String) (items : List rss.Item) (feed : rss.Feed) :
    items.foldl (fun fd elem => (unescapeText.body unescape fd elem).1) feed = feed := by
  induction items generalizing feed with
  | nil => rfl
  | cons i rest ih =>
    rw [List.foldl_cons, ih]
    rfl

theorem unescapeText_eq (unescape : String → String) (feed : rss.Feed) :
    unescapeText unescape feed =
      { Channel :=
        { Title := unescape feed.Channel.Title, Link := feed.Channel.Link,
          Description := unescape feed.Channel.Description, Items := feed.Channel.Items } } := by
  simp only [unescapeText, unescapeText_fold]

/-- C3 (the code leaves the items as they are): whatever `html.UnescapeString`
computes, `unescapeText` applied to the feed whose channel title and single item
title are both "A &amp; B" unescapes the channel title and returns the item
with the title "A &amp; B" it came with. -/
theorem unescapeText_keeps_item_escaped (unescape : String → String) :
    (unescapeText unescape escapedFeed).Channel.Title = unescape "A &amp; B" ∧
    (unescapeText unescape escapedFeed).Channel.Items = [{ Title := "A &amp; B" }] := by
  rw [unescapeText_eq]
  exact ⟨rfl, rfl⟩

end Gator
